import Mathlib

/-!
Verification of the Corsair H80i V2 control core (src/corsair_h80i_v2.c).

The embedding models the protocol layer of the C file: frame construction in
corsair_send_command, the status decode in corsair_get_status, percentage
clamping in corsair_set_pump_speed / corsair_set_fan_speed, the teardown logic
of corsair_close, and the acquisition/cleanup control flow of corsair_init.
Transport outcomes (libusb return codes, the bytes delivered by an interrupt
read) are inputs of the model, since libusb itself is an external collaborator.
Bytes are natural numbers below 256 (C unsigned char); the liquid-temperature
value, computed in C as buffer[1] + buffer[2]/10.0, is modelled exactly over
the rationals.
-/

namespace Corsair

/-- Fixed protocol frame size, sizeof(dev->buffer) in the C struct. -/
def frameSize : Nat := 64

/-- Command opcode CMD_INIT. -/
def CMD_INIT : Nat := 0x00

/-- Command opcode CMD_GET_STATUS. -/
def CMD_GET_STATUS : Nat := 0x01

/-- Command opcode CMD_SET_PUMP. -/
def CMD_SET_PUMP : Nat := 0x13

/-- Command opcode CMD_SET_FAN. -/
def CMD_SET_FAN : Nat := 0x12

/-- Command opcode CMD_SET_LED. -/
def CMD_SET_LED : Nat := 0x23

/-- libusb error code returned when an interrupt transfer times out. -/
def LIBUSB_ERROR_TIMEOUT : Int := -7

/-- Read byte i of a buffer; out-of-range reads give 0 (the buffer is a
fixed-size zero-initialised array in the C source). -/
def byteAt (buf : List Nat) (i : Nat) : Nat := buf.getD i 0

/-- memcpy(buf + i, d, d.length): write the bytes of d into buf starting at
index i, one byte at a time. -/
def copyAt : List Nat → Nat → List Nat → List Nat
  | buf, _, [] => buf
  | buf, i, d :: ds => copyAt (buf.set i d) (i + 1) ds

/-- Frame assembled by corsair_send_command before the interrupt transfer,
lines 111-116 of the source: memset(dev->buffer, 0, 64); dev->buffer[0] = cmd;
if (data && data_len > 0) memcpy(dev->buffer + 1, data, data_len).
A NULL data pointer is modelled as none. -/
def buildFrame (cmd : Nat) (data : Option (List Nat)) : List Nat :=
  let buf := (List.replicate frameSize 0).set 0 cmd
  match data with
  | none => buf
  | some d => if 0 < d.length then copyAt buf 1 d else buf

/-- Return code and transmitted frame of corsair_send_command, given the
libusb_interrupt_transfer return code writeRet: the frame is always built and
handed to the transfer (the source performs no payload-length check), and the
function returns writeRet when negative, otherwise 0. -/
def corsair_send_command (writeRet : Int) (cmd : Nat) (data : Option (List Nat)) :
    Int × List Nat :=
  (if writeRet < 0 then writeRet else 0, buildFrame cmd data)

/-- Decoded telemetry produced by the status parse in corsair_get_status. -/
structure StatusSnapshot where
  temp : ℚ
  pump : Nat
  fan1 : Nat
  fan2 : Nat
deriving DecidableEq, Repr

/-- Status decode of corsair_get_status, lines 198-201 of the source:
temperature = buffer[1] + buffer[2]/10.0, pump = (buffer[3] << 8) | buffer[4],
fan1 = (buffer[5] << 8) | buffer[6], fan2 = (buffer[7] << 8) | buffer[8]. -/
def decodeStatus (frame : List Nat) : StatusSnapshot :=
  ⟨(byteAt frame 1 : ℚ) + (byteAt frame 2 : ℚ) / 10,
   byteAt frame 3 <<< 8 ||| byteAt frame 4,
   byteAt frame 5 <<< 8 ||| byteAt frame 6,
   byteAt frame 7 <<< 8 ||| byteAt frame 8⟩

/-- Concrete response frame whose bytes 1..8 are
25, 5, 0x0B, 0xB8, 0x0C, 0x1C, 0x0C, 0x1C and whose other bytes are zero. -/
def sampleFrame : List Nat :=
  buildFrame 0 (some [25, 5, 0x0B, 0xB8, 0x0C, 0x1C, 0x0C, 0x1C])

/-- Percentage clamp performed inline by corsair_set_pump_speed and
corsair_set_fan_speed: if (speed_percent > 100) speed_percent = 100. -/
def clamp (p : Nat) : Nat := if p > 100 then 100 else p

/-- Opcode and 2-byte payload that corsair_set_pump_speed passes to
corsair_send_command: data[0] = clamped percent, data[1] = 0. -/
def corsair_set_pump_speed (speed_percent : Nat) : Nat × List Nat :=
  (CMD_SET_PUMP, [clamp speed_percent, 0])

/-- Opcode and 2-byte payload that corsair_set_fan_speed passes to
corsair_send_command: data[0] = fan_id, data[1] = clamped percent. -/
def corsair_set_fan_speed (fan_id speed_percent : Nat) : Nat × List Nat :=
  (CMD_SET_FAN, [fan_id, clamp speed_percent])

/-- USB transfer attempted by the get-status exchange, in order. -/
inductive Action where
| write (frame : List Nat) : Action
| read : Action
deriving DecidableEq, Repr

/-- Outcomes of the underlying libusb transfers during one get-status
exchange: the interrupt-write return code, the interrupt-read return code, and
the bytes the read places in the shared buffer on success. -/
structure Transport where
  writeRet : Int
  readRet : Int
  response : List Nat

/-- corsair_get_status, lines 183-204 of the source, as a function of the
transport outcomes: it sends CMD_GET_STATUS with a NULL payload, returns the
write error code immediately when the write fails (no read is attempted),
otherwise reads, returns the read error code when the read fails, and
otherwise decodes the response buffer. The result is the C return code, the
decoded snapshot when one is produced, and the transfers attempted in order. -/
def corsair_get_status (tr : Transport) : Int × Option StatusSnapshot × List Action :=
  if tr.writeRet < 0 then
    (tr.writeRet, none, [Action.write (buildFrame CMD_GET_STATUS none)])
  else if tr.readRet < 0 then
    (tr.readRet, none, [Action.write (buildFrame CMD_GET_STATUS none), Action.read])
  else
    (0, some (decodeStatus tr.response),
     [Action.write (buildFrame CMD_GET_STATUS none), Action.read])

/-- Underlying libusb calls that acquire or free device resources. -/
inductive UsbCall where
| openHandle : UsbCall
| closeHandle : UsbCall
| claimInterface : UsbCall
| releaseInterface : UsbCall
| attachKernelDriver : UsbCall
| usbExit : UsbCall
deriving DecidableEq, Repr

/-- Device struct state visible to corsair_close: whether dev->handle is
non-NULL. -/
structure DeviceState where
  handleOpen : Bool
deriving DecidableEq, Repr

/-- corsair_close, lines 207-215 of the source: when dev->handle is non-NULL
it releases the interface, re-attaches the kernel driver, closes the handle,
exits libusb and sets dev->handle = NULL; otherwise it does nothing. Returns
the updated struct state and the hardware calls performed. The C function
returns void, so the model has no failure channel. -/
def corsair_close (dev : DeviceState) : DeviceState × List UsbCall :=
  if dev.handleOpen then
    (⟨false⟩, [UsbCall.releaseInterface, UsbCall.attachKernelDriver,
               UsbCall.closeHandle, UsbCall.usbExit])
  else
    (dev, [])

/-- Outcomes of the libusb calls made during corsair_init: the libusb_init
return code, whether libusb_open_device_with_vid_pid returned a handle,
whether a kernel driver was active, and the return codes of the detach, the
interface claim and the INIT interrupt transfer. -/
structure InitEnv where
  libusbInitRet : Int
  openOk : Bool
  kernelDriverActive : Bool
  detachRet : Int
  claimRet : Int
  transferRet : Int

/-- Resources held against the device: an open handle and a claimed
interface. -/
structure Resources where
  opened : Bool
  claimed : Bool
deriving DecidableEq, Repr

/-- Effect of one libusb call on the held resources. -/
def applyCall (r : Resources) : UsbCall → Resources
  | UsbCall.openHandle => ⟨true, r.claimed⟩
  | UsbCall.closeHandle => ⟨false, r.claimed⟩
  | UsbCall.claimInterface => ⟨r.opened, true⟩
  | UsbCall.releaseInterface => ⟨r.opened, false⟩
  | UsbCall.attachKernelDriver => r
  | UsbCall.usbExit => r

/-- Resources held after a sequence of libusb calls. -/
def runCalls (r : Resources) : List UsbCall → Resources
  | [] => r
  | c :: cs => runCalls (applyCall r c) cs

/-- corsair_init, lines 46-105 of the source, as a function of the libusb call
outcomes. Returns the C return code together with the resource-affecting
libusb calls made, in order: libusb_init, then open; on open failure exit; on
detach failure close and exit; on claim failure close and exit; on INIT
transfer failure the code calls corsair_close, whose calls are inlined here
from its model; on success the handle stays open and the interface claimed. -/
def corsair_init (env : InitEnv) : Int × List UsbCall :=
  if env.libusbInitRet < 0 then
    (env.libusbInitRet, [])
  else if ¬ env.openOk then
    (-1, [UsbCall.usbExit])
  else if env.kernelDriverActive ∧ env.detachRet < 0 then
    (env.detachRet, [UsbCall.openHandle, UsbCall.closeHandle, UsbCall.usbExit])
  else if env.claimRet < 0 then
    (env.claimRet, [UsbCall.openHandle, UsbCall.closeHandle, UsbCall.usbExit])
  else if env.transferRet < 0 then
    (env.transferRet,
     [UsbCall.openHandle, UsbCall.claimInterface] ++ (corsair_close ⟨true⟩).2)
  else
    (0, [UsbCall.openHandle, UsbCall.claimInterface])

/-- Modelled from the spec: build_frame_with_known_fields, a response frame
carrying the given telemetry fields at the documented offsets — byte 1 the
integer part of the temperature, byte 2 its tenths digit, bytes 3-4 the pump
RPM big-endian, bytes 5-6 fan-1 RPM, bytes 7-8 fan-2 RPM, other bytes zero. -/
def encodeStatusFrame (t i p f1 f2 : Nat) : List Nat :=
  [0, t, i, p / 256, p % 256, f1 / 256, f1 % 256, f2 / 256, f2 % 256] ++
    List.replicate 55 0

/-! Helper lemmas about bytes, copyAt and the assembled buffers. -/

/-- C integer promotion of (hi << 8) | lo: when the low byte fits in 8 bits
the bitwise or is the big-endian 16-bit value hi * 256 + lo. -/
theorem lor_shiftLeft_eq_add (a b : Nat) (hb : b < 256) :
    a <<< 8 ||| b = 256 * a + b := by
  apply Nat.eq_of_testBit_eq
  intro j
  rw [Nat.testBit_lor, Nat.testBit_shiftLeft]
  have hb8 : b < 2 ^ 8 := hb
  have h256 : (256 : Nat) * a + b = 2 ^ 8 * a + b := by norm_num
  rw [h256, Nat.testBit_mul_pow_two_add a hb8 j]
  by_cases hj : j < 8
  · have hge : ¬ (j ≥ 8) := by omega
    simp [hj, hge]
  · have hge : j ≥ 8 := by omega
    have hbf : b.testBit j = false :=
      Nat.testBit_lt_two_pow (lt_of_lt_of_le hb8 (Nat.pow_le_pow_right (by norm_num) hge))
    simp [hj, hge, hbf]

/-- copyAt writes in place and never changes the buffer length. -/
theorem length_copyAt (d : List Nat) : ∀ (buf : List Nat) (i : Nat),
    (copyAt buf i d).length = buf.length := by
  induction d with
  | nil => intro buf i; rfl
  | cons a d ih => intro buf i; rw [copyAt, ih, List.length_set]

/-- Writing one byte leaves every other position unchanged. -/
theorem byteAt_set_ne (buf : List Nat) (i k : Nat) (a : Nat) (h : i ≠ k) :
    byteAt (buf.set i a) k = byteAt buf k := by
  simp [byteAt, List.getD_eq_getElem?_getD, List.getElem?_set_ne h]

/-- Writing one byte in bounds is read back at the same position. -/
theorem byteAt_set_self (buf : List Nat) (i : Nat) (a : Nat) (h : i < buf.length) :
    byteAt (buf.set i a) i = a := by
  simp [byteAt, List.getD_eq_getElem?_getD, List.getElem?_set_self h]

/-- copyAt leaves every position below the destination offset unchanged. -/
theorem byteAt_copyAt_lt (d : List Nat) : ∀ (buf : List Nat) (i k : Nat), k < i →
    byteAt (copyAt buf i d) k = byteAt buf k := by
  induction d with
  | nil => intro buf i k _; rfl
  | cons a d ih =>
    intro buf i k hk
    rw [copyAt, ih (buf.set i a) (i + 1) k (by omega), byteAt_set_ne buf i k a (by omega)]

/-- copyAt leaves every position at or beyond the end of the copied region
unchanged. -/
theorem byteAt_copyAt_ge (d : List Nat) : ∀ (buf : List Nat) (i k : Nat),
    i + d.length ≤ k → byteAt (copyAt buf i d) k = byteAt buf k := by
  induction d with
  | nil => intro buf i k _; rfl
  | cons a d ih =>
    intro buf i k hk
    simp only [List.length_cons] at hk
    rw [copyAt, ih (buf.set i a) (i + 1) k (by omega), byteAt_set_ne buf i k a (by omega)]

/-- Inside the copied region, copyAt reads back the source bytes. -/
theorem byteAt_copyAt_mid (d : List Nat) : ∀ (buf : List Nat) (i j : Nat),
    j < d.length → i + d.length ≤ buf.length →
    byteAt (copyAt buf i d) (i + j) = byteAt d j := by
  induction d with
  | nil => intro buf i j hj _; exact absurd hj (by simp)
  | cons a d ih =>
    intro buf i j hj hlen
    simp only [List.length_cons] at hj hlen
    rw [copyAt]
    cases j with
    | zero =>
      rw [byteAt_copyAt_lt d (buf.set i a) (i + 1) (i + 0) (by omega)]
      show byteAt (buf.set i a) i = byteAt (a :: d) 0
      rw [byteAt_set_self buf i a (by omega)]
      rfl
    | succ j =>
      have hstep : i + (j + 1) = (i + 1) + j := by omega
      rw [hstep, ih (buf.set i a) (i + 1) j (by omega) (by simp; omega)]
      rfl

/-- Reading anywhere in an all-zero buffer gives zero. -/
theorem byteAt_replicate_zero (n k : Nat) : byteAt (List.replicate n 0) k = 0 := by
  simp [byteAt, List.getD_eq_getElem?_getD, List.getElem?_replicate]
  split <;> rfl

/-- Every byte read from a buffer of bytes is below 256 (out-of-range reads
give the default 0). -/
theorem byteAt_lt_of_bytes {frame : List Nat} (h : ∀ b ∈ frame, b < 256) (k : Nat) :
    byteAt frame k < 256 := by
  rw [byteAt, List.getD_eq_getElem?_getD]
  cases hk : frame[k]? with
  | none => simp
  | some b => simpa using h b (List.getElem?_mem hk)

/-! Claim theorems. -/

/-- C1: the status decode of corsair_get_status is a total function of the
frame; on every 64-byte frame of bytes it computes liquid temperature
frame[1] + frame[2]/10, pump RPM as the big-endian 16-bit value at bytes 3-4,
and fan RPMs as the big-endian 16-bit values at bytes 5-6 and 7-8; on the
frame whose bytes 1..8 are 25, 5, 0x0B, 0xB8, 0x0C, 0x1C, 0x0C, 0x1C it
yields temperature 25.5, pump 3000, fan1 3100, fan2 3100. -/
theorem decode_status_spec (frame : List Nat) (hlen : frame.length = frameSize)
    (hbytes : ∀ b ∈ frame, b < 256) :
    decodeStatus frame =
      ⟨(byteAt frame 1 : ℚ) + (byteAt frame 2 : ℚ) / 10,
       256 * byteAt frame 3 + byteAt frame 4,
       256 * byteAt frame 5 + byteAt frame 6,
       256 * byteAt frame 7 + byteAt frame 8⟩ ∧
    decodeStatus sampleFrame = ⟨25.5, 3000, 3100, 3100⟩ := by
  constructor
  · simp only [decodeStatus, StatusSnapshot.mk.injEq]
    refine ⟨trivial, lor_shiftLeft_eq_add _ _ (byteAt_lt_of_bytes hbytes 4),
      lor_shiftLeft_eq_add _ _ (byteAt_lt_of_bytes hbytes 6),
      lor_shiftLeft_eq_add _ _ (byteAt_lt_of_bytes hbytes 8)⟩
  · have h1 : byteAt sampleFrame 1 = 25 := rfl
    have h2 : byteAt sampleFrame 2 = 5 := rfl
    have hp : byteAt sampleFrame 3 <<< 8 ||| byteAt sampleFrame 4 = 3000 := by decide
    have hf1 : byteAt sampleFrame 5 <<< 8 ||| byteAt sampleFrame 6 = 3100 := by decide
    have hf2 : byteAt sampleFrame 7 <<< 8 ||| byteAt sampleFrame 8 = 3100 := by decide
    simp [decodeStatus, h1, h2, hp, hf1, hf2, StatusSnapshot.mk.injEq]
    norm_num

/-- Witness for C1: the decode applied to the concrete sample frame. -/
theorem decode_status_spec_witness :
    decodeStatus sampleFrame = ⟨25.5, 3000, 3100, 3100⟩ :=
  (decode_status_spec sampleFrame (by decide) (by decide)).2

/-- C2: for percent above 100 both setters send payloads whose percent field
is exactly 100; clamping is idempotent; for percent in 0..100 the percent
field is unchanged; the pump payload is [percent, 0] and the fan payload is
[fan_index, percent]. -/
theorem set_speed_clamp (speed_percent fan_id : Nat) :
    (100 < speed_percent →
      (corsair_set_pump_speed speed_percent).2 = [100, 0] ∧
      (corsair_set_fan_speed fan_id speed_percent).2 = [fan_id, 100]) ∧
    clamp (clamp speed_percent) = clamp speed_percent ∧
    (speed_percent ≤ 100 →
      (corsair_set_pump_speed speed_percent).2 = [speed_percent, 0] ∧
      (corsair_set_fan_speed fan_id speed_percent).2 = [fan_id, speed_percent]) := by
  unfold corsair_set_pump_speed corsair_set_fan_speed clamp
  refine ⟨fun h => ?_, ?_, fun h => ?_⟩
  · simp [h]
  · split_ifs <;> simp_all
  · have hnot : ¬ speed_percent > 100 := by omega
    simp [hnot]

/-- Witness for C2: clamping at 150, 42 and 100. -/
theorem set_speed_clamp_witness :
    (corsair_set_pump_speed 150).2 = [100, 0] ∧
    (corsair_set_fan_speed 1 150).2 = [1, 100] ∧
    (corsair_set_pump_speed 42).2 = [42, 0] ∧
    clamp (clamp 100) = clamp 100 :=
  ⟨((set_speed_clamp 150 1).1 (by decide)).1,
   ((set_speed_clamp 150 1).1 (by decide)).2,
   ((set_speed_clamp 42 1).2.2 (by decide)).1,
   (set_speed_clamp 100 0).2.1⟩

/-- C3: for every payload of length at most 63, the frame built by
corsair_send_command has exactly 64 bytes, the opcode at offset 0, the
payload bytes at offsets 1..L, and zero at every offset from L+1 up to 63. -/
theorem send_command_frame_spec (cmd : Nat) (data : List Nat)
    (hL : data.length ≤ frameSize - 1) :
    (buildFrame cmd (some data)).length = frameSize ∧
    byteAt (buildFrame cmd (some data)) 0 = cmd ∧
    (∀ j, j < data.length → byteAt (buildFrame cmd (some data)) (1 + j) = byteAt data j) ∧
    (∀ k, data.length + 1 ≤ k → k < frameSize → byteAt (buildFrame cmd (some data)) k = 0) := by
  have hfs : frameSize = 64 := rfl
  have hL' : data.length ≤ 63 := by rw [hfs] at hL; omega
  have hbase_len : ((List.replicate frameSize 0).set 0 cmd).length = frameSize := by
    simp
  by_cases hd : 0 < data.length
  · have hbf : buildFrame cmd (some data) =
        copyAt ((List.replicate frameSize 0).set 0 cmd) 1 data := by
      simp [buildFrame, hd]
    rw [hbf]
    refine ⟨?_, ?_, ?_, ?_⟩
    · rw [length_copyAt]; exact hbase_len
    · rw [byteAt_copyAt_lt data _ 1 0 (by omega)]
      exact byteAt_set_self _ 0 cmd (by simp [frameSize])
    · intro j hj
      exact byteAt_copyAt_mid data _ 1 j hj (by rw [hbase_len, hfs]; omega)
    · intro k hk1 _
      rw [byteAt_copyAt_ge data _ 1 k (by omega),
          byteAt_set_ne _ 0 k cmd (by omega), byteAt_replicate_zero]
  · have hbf : buildFrame cmd (some data) = (List.replicate frameSize 0).set 0 cmd := by
      simp [buildFrame, hd]
    rw [hbf]
    refine ⟨hbase_len, byteAt_set_self _ 0 cmd (by simp [frameSize]), ?_, ?_⟩
    · intro j hj; omega
    · intro k hk1 _
      rw [byteAt_set_ne _ 0 k cmd (by omega), byteAt_replicate_zero]

/-- Witness for C3: the SET_PUMP frame for payload [70, 0]. -/
theorem send_command_frame_spec_witness :
    (buildFrame 0x13 (some [70, 0])).length = frameSize ∧
    byteAt (buildFrame 0x13 (some [70, 0])) 0 = 0x13 ∧
    byteAt (buildFrame 0x13 (some [70, 0])) 1 = 70 ∧
    byteAt (buildFrame 0x13 (some [70, 0])) 10 = 0 := by
  have h := send_command_frame_spec 0x13 [70, 0] (by decide)
  refine ⟨h.1, h.2.1, ?_, h.2.2.2 10 (by decide) (by decide)⟩
  have := h.2.2.1 0 (by decide)
  simpa using this

/-- C4: evaluation at the failing input. A 64-byte payload exceeds
frame_size - 1 = 63, yet corsair_send_command returns 0 (success): the source
has no payload-length check and no PayloadTooLarge failure path, and still
performs the transfer; the claimed rejection does not happen (the memcpy of
data_len bytes at offset 1 runs past the 64-byte buffer). -/
theorem send_command_oversized_payload_no_error :
    (List.replicate 64 1).length > frameSize - 1 ∧
    (corsair_send_command 0 CMD_SET_LED (some (List.replicate 64 1))).1 = 0 := by
  constructor <;> decide

/-- C5: in corsair_get_status a failed write returns that error code with no
read attempted and no snapshot; a successful write followed by a read timeout
returns the timeout code and produces no snapshot. -/
theorem get_status_error_propagation (tr : Transport) :
    (tr.writeRet < 0 →
      (corsair_get_status tr).1 = tr.writeRet ∧
      (corsair_get_status tr).2.1 = none ∧
      Action.read ∉ (corsair_get_status tr).2.2) ∧
    (0 ≤ tr.writeRet → tr.readRet = LIBUSB_ERROR_TIMEOUT →
      (corsair_get_status tr).1 = LIBUSB_ERROR_TIMEOUT ∧
      (corsair_get_status tr).2.1 = none) := by
  constructor
  · intro h
    unfold corsair_get_status
    rw [if_pos h]
    refine ⟨rfl, rfl, ?_⟩
    simp
  · intro h1 h2
    unfold corsair_get_status
    have hw : ¬ tr.writeRet < 0 := by omega
    have hr : tr.readRet < 0 := by rw [h2]; norm_num [LIBUSB_ERROR_TIMEOUT]
    rw [if_neg hw, if_pos hr]
    exact ⟨h2, rfl⟩

/-- Witness for C5: a failed write and a timed-out read on concrete
transports. -/
theorem get_status_error_propagation_witness :
    (corsair_get_status ⟨-1, 0, []⟩).1 = -1 ∧
    Action.read ∉ (corsair_get_status ⟨-1, 0, []⟩).2.2 ∧
    (corsair_get_status ⟨0, -7, []⟩).1 = LIBUSB_ERROR_TIMEOUT ∧
    (corsair_get_status ⟨0, -7, []⟩).2.1 = none := by
  have h1 := (get_status_error_propagation ⟨-1, 0, []⟩).1 (by decide)
  have h2 := (get_status_error_propagation ⟨0, -7, []⟩).2 (by decide) (by decide)
  exact ⟨h1.1, h1.2.2, h2.1, h2.2⟩

/-- C6: corsair_close is idempotent: a second close performs no hardware
calls (in particular no second interface release), closing a never-acquired
handle performs no calls, and the first close invalidates the handle. The C
function returns void, so no call can fail. -/
theorem corsair_close_idempotent (dev : DeviceState) :
    (corsair_close (corsair_close dev).1).2 = [] ∧
    UsbCall.releaseInterface ∉ (corsair_close (corsair_close dev).1).2 ∧
    (corsair_close ⟨false⟩).2 = [] ∧
    (corsair_close ⟨true⟩).1.handleOpen = false := by
  cases dev with
  | mk h => cases h <;> simp [corsair_close]

/-- Witness for C6: double close of an open handle. -/
theorem corsair_close_idempotent_witness :
    (corsair_close (corsair_close ⟨true⟩).1).2 = [] ∧
    (corsair_close ⟨true⟩).1.handleOpen = false :=
  ⟨(corsair_close_idempotent ⟨true⟩).1, (corsair_close_idempotent ⟨true⟩).2.2.2⟩

/-- C7: encoding a representable field tuple at the documented offsets and
decoding the frame recovers the tuple exactly: the decode returns exactly the
encoded temperature value and RPMs, and the temperature value determines the
integer part and tenths digit uniquely. -/
theorem status_roundtrip (t i p f1 f2 : Nat) (ht : t < 256) (hi : i < 10)
    (hp : p < 65536) (hf1 : f1 < 65536) (hf2 : f2 < 65536) :
    decodeStatus (encodeStatusFrame t i p f1 f2) =
      ⟨(t : ℚ) + (i : ℚ) / 10, p, f1, f2⟩ ∧
    (∀ t' i' : Nat, t' < 256 → i' < 10 →
      (t : ℚ) + (i : ℚ) / 10 = (t' : ℚ) + (i' : ℚ) / 10 → t = t' ∧ i = i') := by
  constructor
  · have hb1 : byteAt (encodeStatusFrame t i p f1 f2) 1 = t := rfl
    have hb2 : byteAt (encodeStatusFrame t i p f1 f2) 2 = i := rfl
    have hb3 : byteAt (encodeStatusFrame t i p f1 f2) 3 = p / 256 := rfl
    have hb4 : byteAt (encodeStatusFrame t i p f1 f2) 4 = p % 256 := rfl
    have hb5 : byteAt (encodeStatusFrame t i p f1 f2) 5 = f1 / 256 := rfl
    have hb6 : byteAt (encodeStatusFrame t i p f1 f2) 6 = f1 % 256 := rfl
    have hb7 : byteAt (encodeStatusFrame t i p f1 f2) 7 = f2 / 256 := rfl
    have hb8 : byteAt (encodeStatusFrame t i p f1 f2) 8 = f2 % 256 := rfl
    simp only [decodeStatus, hb1, hb2, hb3, hb4, hb5, hb6, hb7, hb8,
      StatusSnapshot.mk.injEq]
    refine ⟨trivial, ?_, ?_, ?_⟩ <;>
      rw [lor_shiftLeft_eq_add _ _ (Nat.mod_lt _ (by norm_num))] <;> omega
  · intro t' i' ht' hi' heq
    have hq : (10 : ℚ) * t + i = 10 * t' + i' := by
      field_simp at heq
      linarith
    have hnat : 10 * t + i = 10 * t' + i' := by exact_mod_cast hq
    constructor <;> omega

/-- Witness for C7: round trip of the sample telemetry values. -/
theorem status_roundtrip_witness :
    decodeStatus (encodeStatusFrame 25 5 3000 3100 3100) =
      ⟨(25 : ℚ) + (5 : ℚ) / 10, 3000, 3100, 3100⟩ :=
  (status_roundtrip 25 5 3000 3100 3100 (by decide) (by decide) (by decide)
    (by decide) (by decide)).1

/-- C8: on every failing exit of corsair_init the libusb calls it performed
leave no open handle and no claimed interface behind; in particular, when the
interface was claimed and the INIT transfer then fails, the call sequence
contains the claim and the release performed by the corsair_close it
invokes. -/
theorem corsair_init_cleanup (env : InitEnv) :
    ((corsair_init env).1 < 0 →
      runCalls ⟨false, false⟩ (corsair_init env).2 = ⟨false, false⟩) ∧
    (0 ≤ env.libusbInitRet → env.openOk →
      ¬ (env.kernelDriverActive ∧ env.detachRet < 0) →
      0 ≤ env.claimRet → env.transferRet < 0 →
      UsbCall.claimInterface ∈ (corsair_init env).2 ∧
      UsbCall.releaseInterface ∈ (corsair_init env).2) := by
  unfold corsair_init
  by_cases h1 : env.libusbInitRet < 0
  · rw [if_pos h1]
    exact ⟨fun _ => rfl, fun ha _ _ _ _ => absurd h1 (by omega)⟩
  · rw [if_neg h1]
    by_cases h2 : env.openOk
    · rw [if_neg (not_not_intro h2)]
      by_cases h3 : env.kernelDriverActive ∧ env.detachRet < 0
      · rw [if_pos h3]
        exact ⟨fun _ => rfl, fun _ _ hc _ _ => absurd h3 hc⟩
      · rw [if_neg h3]
        by_cases h4 : env.claimRet < 0
        · rw [if_pos h4]
          exact ⟨fun _ => rfl, fun _ _ _ hd _ => absurd h4 (by omega)⟩
        · rw [if_neg h4]
          by_cases h5 : env.transferRet < 0
          · rw [if_pos h5]
            exact ⟨fun _ => rfl, fun _ _ _ _ _ => by constructor <;> simp [corsair_close]⟩
          · rw [if_neg h5]
            exact ⟨fun h => absurd h (by omega), fun _ _ _ _ he => absurd he h5⟩
    · rw [if_pos h2]
      exact ⟨fun _ => rfl, fun _ hb _ _ _ => absurd hb h2⟩

/-- Witness for C8: an environment where everything is acquired and the INIT
transfer times out. -/
theorem corsair_init_cleanup_witness :
    runCalls ⟨false, false⟩ (corsair_init ⟨0, true, false, 0, 0, -7⟩).2 = ⟨false, false⟩ ∧
    UsbCall.releaseInterface ∈ (corsair_init ⟨0, true, false, 0, 0, -7⟩).2 := by
  have h := corsair_init_cleanup ⟨0, true, false, 0, 0, -7⟩
  exact ⟨h.1 (by decide),
    (h.2 (by decide) (by decide) (by decide) (by decide) (by decide)).2⟩

/-- C9: the status decode reads only bytes 1..8: any two frames agreeing
there decode to identical snapshots, so bytes 0 and 9..63 have no influence
on the result. -/
theorem decode_status_noninterference (f g : List Nat)
    (h : ∀ i, 1 ≤ i → i ≤ 8 → byteAt f i = byteAt g i) :
    decodeStatus f = decodeStatus g := by
  have h1 := h 1 (by omega) (by omega)
  have h2 := h 2 (by omega) (by omega)
  have h3 := h 3 (by omega) (by omega)
  have h4 := h 4 (by omega) (by omega)
  have h5 := h 5 (by omega) (by omega)
  have h6 := h 6 (by omega) (by omega)
  have h7 := h 7 (by omega) (by omega)
  have h8 := h 8 (by omega) (by omega)
  simp [decodeStatus, h1, h2, h3, h4, h5, h6, h7, h8]

/-- Witness for C9: two frames differing at byte 0 and in the tail decode
identically. -/
theorem decode_status_noninterference_witness :
    decodeStatus (0 :: [25, 5, 11, 184, 12, 28, 12, 28] ++ List.replicate 55 0) =
      decodeStatus (99 :: [25, 5, 11, 184, 12, 28, 12, 28] ++ List.replicate 55 7) := by
  apply decode_status_noninterference
  intro i h1 h8
  interval_cases i <;> rfl

/-- C10: a NULL or empty payload is accepted: no payload byte is copied and
the transmitted frame is the opcode followed by 63 zero bytes; the first
transfer of corsair_get_status writes exactly that frame for
CMD_GET_STATUS. -/
theorem send_command_empty_payload (cmd : Nat) :
    buildFrame cmd none = cmd :: List.replicate 63 0 ∧
    buildFrame cmd (some []) = cmd :: List.replicate 63 0 ∧
    ∀ tr : Transport, (corsair_get_status tr).2.2.head? =
      some (Action.write (CMD_GET_STATUS :: List.replicate 63 0)) := by
  have hb : ∀ c : Nat, buildFrame c none = c :: List.replicate 63 0 := by
    intro c
    simp [buildFrame, frameSize, List.replicate_succ]
  refine ⟨hb cmd, ?_, ?_⟩
  · simp [buildFrame, frameSize, List.replicate_succ]
  · intro tr
    unfold corsair_get_status
    split_ifs <;> simp [hb]

/-- Witness for C10: the GET_STATUS frame with NULL payload. -/
theorem send_command_empty_payload_witness :
    buildFrame CMD_GET_STATUS none = CMD_GET_STATUS :: List.replicate 63 0 ∧
    (corsair_get_status ⟨0, 0, []⟩).2.2.head? =
      some (Action.write (CMD_GET_STATUS :: List.replicate 63 0)) :=
  ⟨(send_command_empty_payload CMD_GET_STATUS).1,
   (send_command_empty_payload CMD_GET_STATUS).2.2 ⟨0, 0, []⟩⟩

end Corsair
